import Mathlib

/-!
Verification of the option-normalization and process-invocation bridge of the
`pagopa-wallet-conformance-test` repository (`src/cli/options.ts` and
`src/cli-server.ts`), as a shallow embedding in Lean.

JavaScript runtime values that can reach the coercion layer are modelled by
the inductive `JSValue` (string, number, boolean, array, `null`, `undefined`).
JavaScript numbers are modelled as `JSNum`: either `NaN` or a finite value
(a rational, standing for the finite doubles the code passes through
unchanged).  Library functions used by the source (`Number.parseInt(s, 10)`,
`String(v)`, `String.prototype.trim`, `toLowerCase`, `path.resolve`) are
modelled explicitly below, restricted to the ASCII behaviour the code relies
on.
-/

namespace Wct

/-- A JavaScript number: `NaN` or a finite value (rationals stand for the
finite doubles; the source never performs float arithmetic on them, it only
passes them through or stringifies them). -/
inductive JSNum where
  | nan : JSNum
  | fin (q : ℚ) : JSNum
  deriving DecidableEq, Repr

mutual
/-- A JavaScript runtime value as seen by `normalizeCliOptions`. -/
inductive JSValue where
  | undef : JSValue
  | null : JSValue
  | bool (b : Bool) : JSValue
  | num (n : JSNum) : JSValue
  | str (s : String) : JSValue
  | arr (xs : JSList) : JSValue
  deriving DecidableEq, Repr

/-- A JavaScript array payload (a list of `JSValue`). -/
inductive JSList where
  | nil : JSList
  | cons (v : JSValue) (l : JSList) : JSList
  deriving DecidableEq, Repr
end

/-- Models `Number.prototype.toString()` on the values the code produces:
integers print their decimal representation, `NaN` prints `"NaN"`; only the
integer case is relied on by any claim. -/
def jsNumString : JSNum → String
  | .nan => "NaN"
  | .fin q => if q.den = 1 then toString q.num else toString q

mutual
/-- Models the JavaScript `String(v)` conversion. -/
def jsString : JSValue → String
  | .undef => "undefined"
  | .null => "null"
  | .bool b => cond b "true" "false"
  | .num n => jsNumString n
  | .str s => s
  | .arr xs => jsListJoin xs

/-- Models `Array.prototype.toString` (join with `","`, where `null` and
`undefined` elements print as the empty string). -/
def jsListJoin : JSList → String
  | .nil => ""
  | .cons v l =>
      let head := if v = JSValue.undef ∨ v = JSValue.null then "" else jsString v
      match l with
      | .nil => head
      | .cons _ _ => head ++ "," ++ jsListJoin l
end

/-- `value.map(String)` on an array payload. -/
def jsListMapString : JSList → List String
  | .nil => []
  | .cons v l => jsString v :: jsListMapString l

/-- `Number.parseInt`'s whitespace skipping, restricted to the ASCII
whitespace characters. -/
def isWsChar (c : Char) : Bool :=
  c == ' ' || c == '\t' || c == '\n' || c == '\r'

/-- Value of a list of decimal digit characters. -/
def digitsVal (ds : List Char) : ℕ :=
  ds.foldl (fun a c => 10 * a + (c.toNat - '0'.toNat)) 0

/-- Consumes the optional single leading sign of `Number.parseInt`. -/
def splitSign (cs : List Char) : ℤ × List Char :=
  match cs with
  | [] => (1, [])
  | c :: rest =>
      if c = '-' then (-1, rest)
      else if c = '+' then (1, rest)
      else (1, c :: rest)

/-- Models `Number.parseInt(s, 10)`: skip leading whitespace, consume an
optional sign, then the longest run of decimal digits; `none` models `NaN`
(no digits found). -/
def parseIntChars (cs : List Char) : Option ℤ :=
  let cs := cs.dropWhile isWsChar
  let (sign, cs) := splitSign cs
  let ds := cs.takeWhile Char.isDigit
  if ds.isEmpty then none else some (sign * (digitsVal ds : ℤ))

/-- `Number.parseInt(s, 10)` on a string, with the parse value kept as an
exact integer (see `parseIntJSBase10` for the variant carrying the IEEE
double rounding a JavaScript `Number` result entails). -/
def parseIntBase10 (s : String) : Option ℤ :=
  parseIntChars s.data

/-- Number of halvings needed to bring `n` below `2 ^ 53` (the significand
width of an IEEE-754 double).  The first argument is fuel; `1100` halvings
suffice for every value below the double overflow threshold (`2 ^ 1024`),
beyond which `parseInt` returns `Infinity`, which is outside the range any
claim exercises. -/
def excessBits : ℕ → ℕ → ℕ
  | 0, _ => 0
  | fuel + 1, n => if n < 2 ^ 53 then 0 else excessBits fuel (n / 2) + 1

/-- Rounds a natural number to the nearest IEEE-754 double (round half to
even at 53 significant bits).  Exact on values below `2 ^ 53`. -/
def roundNatToDouble (n : ℕ) : ℕ :=
  let e := excessBits 1100 n
  if e = 0 then n
  else
    let q := n / 2 ^ e
    let r := n % 2 ^ e
    let half := 2 ^ (e - 1)
    if r < half then q * 2 ^ e
    else if half < r then (q + 1) * 2 ^ e
    else (if q % 2 = 0 then q else q + 1) * 2 ^ e

/-- Rounds an integer to the nearest IEEE-754 double (sign-symmetric, as
IEEE rounding is on sign-magnitude). -/
def roundToDouble (n : ℤ) : ℤ :=
  Int.sign n * (roundNatToDouble n.natAbs : ℤ)

/-- `Number.parseInt(s, 10)` including the rounding of the mathematical
parse value to the nearest double that returning a JavaScript `Number`
entails: beyond `2 ^ 53` the digit run's value is not returned exactly. -/
def parseIntJSChars (cs : List Char) : Option ℤ :=
  (parseIntChars cs).map roundToDouble

/-- The double-rounding variant of `parseIntBase10` on a string. -/
def parseIntJSBase10 (s : String) : Option ℤ :=
  parseIntJSChars s.data

/-- Models `String.prototype.trim()` (ASCII whitespace). -/
def jsTrim (s : String) : String :=
  ⟨((s.data.dropWhile isWsChar).reverse.dropWhile isWsChar).reverse⟩

/-- ASCII lower-casing of one character. -/
def lowerChar (c : Char) : Char :=
  if 'A' ≤ c ∧ c ≤ 'Z' then Char.ofNat (c.toNat + 32) else c

/-- Models `String.prototype.toLowerCase()` (ASCII). -/
def jsToLower (s : String) : String := ⟨s.data.map lowerChar⟩

/-- The truthy string set of `coerceBoolean`. -/
def truthyValues : List String := ["true", "1", "yes"]

/-- The falsy string set of `coerceBoolean`. -/
def falsyValues : List String := ["false", "0", "no"]

/-- Embeds `coerceBoolean` from `src/cli/options.ts`: the returned pair is
(result, errors appended to the mutable `errors` array). `jsTrim` and
`jsToLower` model `trim()`/`toLowerCase()` on the ASCII inputs the code
compares against. -/
def coerceBoolean (value : JSValue) (optionName : String) :
    Option Bool × List String :=
  match value with
  | .undef => (none, [])
  | .null => (none, [])
  | .bool b => (some b, [])
  | .str s =>
      let normalized := jsToLower (jsTrim s)
      if truthyValues.contains normalized then (some true, [])
      else if falsyValues.contains normalized then (some false, [])
      else (none, ["Invalid boolean value for " ++ optionName ++ "."])
  | _ => (none, ["Invalid boolean value for " ++ optionName ++ "."])

/-- Embeds `coerceNumber` from `src/cli/options.ts`: `undefined`, `null` and
the empty string yield absent with no error; a non-`NaN` number passes
through; a string goes through `Number.parseInt(s, 10)`; everything else
(including `NaN`) appends the error message. -/
def coerceNumber (value : JSValue) (optionName : String) :
    Option JSNum × List String :=
  match value with
  | .undef => (none, [])
  | .null => (none, [])
  | .num (.fin q) => (some (.fin q), [])
  | .str s =>
      if s = "" then (none, [])
      else
        match parseIntBase10 s with
        | some n => (some (.fin (n : ℚ)), [])
        | none => (none, ["Invalid numeric value for " ++ optionName ++ "."])
  | _ => (none, ["Invalid numeric value for " ++ optionName ++ "."])

/-- Embeds `coerceNumber` with the string parse carried out by
`parseIntJSBase10`, i.e. including the IEEE double rounding of the parse
value; identical to `coerceNumber` in every other case.  This is the
faithful model for statements that pin the exact numeric value a parsed
string produces. -/
def coerceNumberJS (value : JSValue) (optionName : String) :
    Option JSNum × List String :=
  match value with
  | .undef => (none, [])
  | .null => (none, [])
  | .num (.fin q) => (some (.fin q), [])
  | .str s =>
      if s = "" then (none, [])
      else
        match parseIntJSBase10 s with
        | some n => (some (.fin (n : ℚ)), [])
        | none => (none, ["Invalid numeric value for " ++ optionName ++ "."])
  | _ => (none, ["Invalid numeric value for " ++ optionName ++ "."])

/-- Embeds `coerceString` from `src/cli/options.ts`: `undefined`/`null` yield
absent, arrays map `String` over the elements and join with `","`, anything
else is `String(value)`.  No error channel exists. -/
def coerceString (value : JSValue) : Option String :=
  match value with
  | .undef => none
  | .null => none
  | .arr xs => some (String.intercalate "," (jsListMapString xs))
  | v => some (jsString v)

/-- The ten logical options, in the declaration order of `CliOptions`. -/
inductive OptionField where
  | fileIni | credentialIssuerUri | presentationAuthorizeUri | credentialTypes
  | timeout | maxRetries | logLevel | logFile | port | saveCredential
  deriving DecidableEq, Repr

/-- Embeds the `optionAliases` record of `src/cli/options.ts`: the alias
lists, camel-case key first, in declared order. -/
def optionAliases : OptionField → List String
  | .fileIni => ["fileIni", "file-ini"]
  | .credentialIssuerUri => ["credentialIssuerUri", "credential-issuer-uri"]
  | .presentationAuthorizeUri =>
      ["presentationAuthorizeUri", "presentation-authorize-uri"]
  | .credentialTypes => ["credentialTypes", "credential-types"]
  | .timeout => ["timeout"]
  | .maxRetries => ["maxRetries", "max-retries"]
  | .logLevel => ["logLevel", "log-level"]
  | .logFile => ["logFile", "log-file"]
  | .port => ["port"]
  | .saveCredential => ["saveCredential", "save-credential"]

/-- The camel-case key of each logical option (the name of the `CliOptions`
field itself). -/
def fieldCamelKey : OptionField → String
  | .fileIni => "fileIni"
  | .credentialIssuerUri => "credentialIssuerUri"
  | .presentationAuthorizeUri => "presentationAuthorizeUri"
  | .credentialTypes => "credentialTypes"
  | .timeout => "timeout"
  | .maxRetries => "maxRetries"
  | .logLevel => "logLevel"
  | .logFile => "logFile"
  | .port => "port"
  | .saveCredential => "saveCredential"

/-- A `RawInput`: a string-keyed bag of JavaScript values (a JS object has
unique keys; lookup returns the first binding).  A key bound to
`JSValue.undef` models a key that is present (`"k" in input` is `true`) with
value `undefined`. -/
abbrev RawInput := List (String × JSValue)

/-- Key presence / access on a `RawInput` (`alias in input` + `input[alias]`
combined: `some v` iff the key is present, with its stored value). -/
def lookupKey (input : RawInput) (k : String) : Option JSValue :=
  match input with
  | [] => none
  | (a, v) :: rest => if a = k then some v else lookupKey rest k

/-- Embeds `getRawValue`: probe the aliases in order; the first key present
in the input wins; absent everywhere yields `undefined`. -/
def getRawValue (input : RawInput) (aliases : List String) : JSValue :=
  match aliases with
  | [] => .undef
  | a :: rest =>
      match lookupKey input a with
      | some v => v
      | none => getRawValue input rest

/-- Embeds the `CliOptions` record type: every field optional. -/
structure CliOptions where
  fileIni : Option String := none
  credentialIssuerUri : Option String := none
  presentationAuthorizeUri : Option String := none
  credentialTypes : Option String := none
  timeout : Option JSNum := none
  maxRetries : Option JSNum := none
  logLevel : Option String := none
  logFile : Option String := none
  port : Option JSNum := none
  saveCredential : Option Bool := none
  deriving DecidableEq, Repr

/-- Embeds `NormalizedOptionsResult`. -/
structure NormalizedOptionsResult where
  options : CliOptions
  errors : List String
  deriving DecidableEq, Repr

/-- Embeds `normalizeCliOptions`: each field is coerced from its alias
lookup; the `errors` array receives pushes in the evaluation order of the
record literal (`timeout`, then `maxRetries`, then `port`, then
`saveCredential`; the string fields never push). -/
def normalizeCliOptions (input : RawInput) : NormalizedOptionsResult :=
  let timeoutR := coerceNumber (getRawValue input (optionAliases .timeout)) "timeout"
  let maxRetriesR :=
    coerceNumber (getRawValue input (optionAliases .maxRetries)) "max-retries"
  let portR := coerceNumber (getRawValue input (optionAliases .port)) "port"
  let saveCredentialR :=
    coerceBoolean (getRawValue input (optionAliases .saveCredential)) "save-credential"
  { options :=
      { fileIni := coerceString (getRawValue input (optionAliases .fileIni))
        credentialIssuerUri :=
          coerceString (getRawValue input (optionAliases .credentialIssuerUri))
        presentationAuthorizeUri :=
          coerceString (getRawValue input (optionAliases .presentationAuthorizeUri))
        credentialTypes :=
          coerceString (getRawValue input (optionAliases .credentialTypes))
        timeout := timeoutR.1
        maxRetries := maxRetriesR.1
        logLevel := coerceString (getRawValue input (optionAliases .logLevel))
        logFile := coerceString (getRawValue input (optionAliases .logFile))
        port := portR.1
        saveCredential := saveCredentialR.1 }
    errors := timeoutR.2 ++ maxRetriesR.2 ++ portR.2 ++ saveCredentialR.2 }

/-- A process environment, observed only through key lookup. -/
abbrev Env := List (String × String)

/-- Lookup in an environment (first binding wins). -/
def envGet (e : Env) (k : String) : Option String :=
  match e with
  | [] => none
  | (a, v) :: rest => if a = k then some v else envGet rest k

/-- Assignment `env.KEY = value` modelled with respect to lookup: the new
binding shadows any older one. -/
def envSet (e : Env) (k v : String) : Env := (k, v) :: e

/-- Models Node's `path.resolve(cwd, p)` to the extent the claims use it:
an absolute path stands alone, a relative one is joined onto the current
working directory (segment normalization is not modelled; no claim depends
on it). -/
def pathResolve (cwd p : String) : String :=
  if p.startsWith "/" then p else cwd ++ "/" ++ p

/-- One `if (options.x) env.K = f(options.x)` statement for a string-valued
field: JavaScript truthiness skips an absent field and the empty string. -/
def writeTruthy (k : String) (f : String → String) (v : Option String)
    (e : Env) : Env :=
  match v with
  | some s => if s = "" then e else envSet e k (f s)
  | none => e

/-- One `if (options.x !== undefined) env.K = options.x.toString()` statement
for a numeric or boolean field: any present value is written. -/
def writeDefined {α : Type} (k : String) (toStr : α → String) (v : Option α)
    (e : Env) : Env :=
  match v with
  | some a => envSet e k (toStr a)
  | none => e

/-- `Boolean.prototype.toString`. -/
def jsBoolString (b : Bool) : String := cond b "true" "false"

/-- Embeds `setEnvFromOptions`: start from a copy of `process.env`, then one
conditional assignment per field, in source order.  String-valued fields are
guarded by JavaScript truthiness (`if (options.fileIni)`): absent or empty
strings are skipped; `fileIni` is resolved against the current working
directory.  Numeric and boolean fields are guarded by `!== undefined` only
and stringified. -/
def setEnvFromOptions (options : CliOptions) (processEnv : Env) (cwd : String) :
    Env :=
  let env := processEnv
  let env := writeTruthy "CONFIG_FILE_INI" (pathResolve cwd) options.fileIni env
  let env := writeTruthy "CONFIG_CREDENTIAL_ISSUER_URI" id
    options.credentialIssuerUri env
  let env := writeTruthy "CONFIG_PRESENTATION_AUTHORIZE_URI" id
    options.presentationAuthorizeUri env
  let env := writeTruthy "CONFIG_CREDENTIAL_TYPES" id options.credentialTypes env
  let env := writeDefined "CONFIG_TIMEOUT" jsNumString options.timeout env
  let env := writeDefined "CONFIG_MAX_RETRIES" jsNumString options.maxRetries env
  let env := writeTruthy "CONFIG_LOG_LEVEL" id options.logLevel env
  let env := writeTruthy "CONFIG_LOG_FILE" id options.logFile env
  let env := writeDefined "CONFIG_PORT" jsNumString options.port env
  let env := writeDefined "CONFIG_SAVE_CREDENTIAL" jsBoolString
    options.saveCredential env
  env

/-- Outcome of one `runCommand` promise: `completed` models the `close`
event (`exitCode` is `null`, i.e. `none`, on abnormal termination),
`startError` models the `error` event (rejection, e.g. command not found). -/
inductive RunOutcome where
  | completed (exitCode : Option ℤ) (stdout stderr : String)
  | startError (message : String)
  deriving DecidableEq, Repr

/-- The JSON body of a test-endpoint response. -/
inductive ResponseBody where
  | errors (errors : List String)
  | payload (command : String) (exitCode : Option ℤ) (stdout stderr : String)
  | execError (error message : String)
  deriving DecidableEq, Repr

/-- An HTTP response of a test-endpoint handler, together with whether a
subprocess was spawned while producing it. -/
structure HandlerResult where
  status : ℕ
  body : ResponseBody
  spawned : Bool
  deriving DecidableEq, Repr

/-- Embeds `normalizeRequestParams`: spread of the query then the body, so a
body key overrides a query key (under first-binding-wins lookup the body
goes first). -/
def normalizeRequestParams (query body : RawInput) : RawInput :=
  (body : List (String × JSValue)) ++ query

/-- Embeds `createTestHandler` from `src/cli-server.ts`, with the Process
Runner abstracted as a function from the projected environment to a
`RunOutcome`.  Non-empty errors short-circuit with `400` before any spawn;
otherwise the runner's outcome is mapped to `200`/`500` exactly as the
source does (`result.exitCode !== 0` selects `500`). -/
def createTestHandler (scriptName : String) (runner : Env → RunOutcome)
    (query body : RawInput) (processEnv : Env) (cwd : String) : HandlerResult :=
  let rawParams := normalizeRequestParams query body
  let r := normalizeCliOptions rawParams
  if r.errors ≠ [] then
    { status := 400, body := .errors r.errors, spawned := false }
  else
    let env := setEnvFromOptions r.options processEnv cwd
    match runner env with
    | .completed exitCode out err =>
        if exitCode ≠ some 0 then
          { status := 500, body := .payload scriptName exitCode out err,
            spawned := true }
        else
          { status := 200, body := .payload scriptName exitCode out err,
            spawned := true }
    | .startError msg =>
        { status := 500, body := .execError "command_execution_failed" msg,
          spawned := true }

/-- The ten `CONFIG_*` keys the Environment Projector may write. -/
def configKeys : List String :=
  ["CONFIG_FILE_INI", "CONFIG_CREDENTIAL_ISSUER_URI",
   "CONFIG_PRESENTATION_AUTHORIZE_URI", "CONFIG_CREDENTIAL_TYPES",
   "CONFIG_TIMEOUT", "CONFIG_MAX_RETRIES", "CONFIG_LOG_LEVEL",
   "CONFIG_LOG_FILE", "CONFIG_PORT", "CONFIG_SAVE_CREDENTIAL"]

/-- The overlay value a string-valued field contributes at its key, given
the ambient value there. -/
def truthyVal (f : String → String) (v : Option String) (amb : Option String) :
    Option String :=
  match v with
  | some s => if s = "" then amb else some (f s)
  | none => amb

/-- The overlay value a numeric/boolean field contributes at its key, given
the ambient value there. -/
def definedVal {α : Type} (toStr : α → String) (v : Option α)
    (amb : Option String) : Option String :=
  match v with
  | some a => some (toStr a)
  | none => amb

/-- The field-to-key mapping written from the spec's words (as amended):
the value each `CONFIG_*` key receives from the options record, `none` when
the field does not cause a write — string-valued fields write only when
present and non-empty, numeric and boolean fields write whenever present. -/
def specConfigValue (o : CliOptions) (cwd : String) : String → Option String
  | "CONFIG_FILE_INI" =>
      o.fileIni.bind fun s => if s = "" then none else some (pathResolve cwd s)
  | "CONFIG_CREDENTIAL_ISSUER_URI" =>
      o.credentialIssuerUri.bind fun s => if s = "" then none else some s
  | "CONFIG_PRESENTATION_AUTHORIZE_URI" =>
      o.presentationAuthorizeUri.bind fun s => if s = "" then none else some s
  | "CONFIG_CREDENTIAL_TYPES" =>
      o.credentialTypes.bind fun s => if s = "" then none else some s
  | "CONFIG_TIMEOUT" => o.timeout.map jsNumString
  | "CONFIG_MAX_RETRIES" => o.maxRetries.map jsNumString
  | "CONFIG_LOG_LEVEL" =>
      o.logLevel.bind fun s => if s = "" then none else some s
  | "CONFIG_LOG_FILE" =>
      o.logFile.bind fun s => if s = "" then none else some s
  | "CONFIG_PORT" => o.port.map jsNumString
  | "CONFIG_SAVE_CREDENTIAL" => o.saveCredential.map jsBoolString
  | _ => none

lemma envGet_envSet (e : Env) (k v k' : String) :
    envGet (envSet e k v) k' = if k = k' then some v else envGet e k' := rfl

lemma envGet_envSet_self (e : Env) (k v : String) :
    envGet (envSet e k v) k = some v := by simp [envGet_envSet]

lemma envGet_envSet_ne (e : Env) (k v k' : String) (h : k ≠ k') :
    envGet (envSet e k v) k' = envGet e k' := by simp [envGet_envSet, h]

lemma envGet_writeTruthy (k : String) (f : String → String) (v : Option String)
    (e : Env) (k' : String) :
    envGet (writeTruthy k f v e) k' =
      if k = k' then truthyVal f v (envGet e k') else envGet e k' := by
  cases v with
  | none => simp [writeTruthy, truthyVal]
  | some s =>
      by_cases hs : s = "" <;>
        simp [writeTruthy, truthyVal, hs, envGet_envSet]

lemma envGet_writeDefined {α : Type} (k : String) (toStr : α → String)
    (v : Option α) (e : Env) (k' : String) :
    envGet (writeDefined k toStr v e) k' =
      if k = k' then definedVal toStr v (envGet e k') else envGet e k' := by
  cases v with
  | none => simp [writeDefined, definedVal]
  | some a => simp [writeDefined, definedVal, envGet_envSet]

lemma envGet_setEnv_fileIni (o : CliOptions) (e : Env) (cwd : String) :
    envGet (setEnvFromOptions o e cwd) "CONFIG_FILE_INI" =
      truthyVal (pathResolve cwd) o.fileIni (envGet e "CONFIG_FILE_INI") := by
  simp [setEnvFromOptions, envGet_writeTruthy, envGet_writeDefined]

lemma envGet_setEnv_credentialIssuerUri (o : CliOptions) (e : Env)
    (cwd : String) :
    envGet (setEnvFromOptions o e cwd) "CONFIG_CREDENTIAL_ISSUER_URI" =
      truthyVal id o.credentialIssuerUri
        (envGet e "CONFIG_CREDENTIAL_ISSUER_URI") := by
  simp [setEnvFromOptions, envGet_writeTruthy, envGet_writeDefined]

lemma envGet_setEnv_presentationAuthorizeUri (o : CliOptions) (e : Env)
    (cwd : String) :
    envGet (setEnvFromOptions o e cwd) "CONFIG_PRESENTATION_AUTHORIZE_URI" =
      truthyVal id o.presentationAuthorizeUri
        (envGet e "CONFIG_PRESENTATION_AUTHORIZE_URI") := by
  simp [setEnvFromOptions, envGet_writeTruthy, envGet_writeDefined]

lemma envGet_setEnv_credentialTypes (o : CliOptions) (e : Env) (cwd : String) :
    envGet (setEnvFromOptions o e cwd) "CONFIG_CREDENTIAL_TYPES" =
      truthyVal id o.credentialTypes (envGet e "CONFIG_CREDENTIAL_TYPES") := by
  simp [setEnvFromOptions, envGet_writeTruthy, envGet_writeDefined]

lemma envGet_setEnv_timeout (o : CliOptions) (e : Env) (cwd : String) :
    envGet (setEnvFromOptions o e cwd) "CONFIG_TIMEOUT" =
      definedVal jsNumString o.timeout (envGet e "CONFIG_TIMEOUT") := by
  simp [setEnvFromOptions, envGet_writeTruthy, envGet_writeDefined]

lemma envGet_setEnv_maxRetries (o : CliOptions) (e : Env) (cwd : String) :
    envGet (setEnvFromOptions o e cwd) "CONFIG_MAX_RETRIES" =
      definedVal jsNumString o.maxRetries (envGet e "CONFIG_MAX_RETRIES") := by
  simp [setEnvFromOptions, envGet_writeTruthy, envGet_writeDefined]

lemma envGet_setEnv_logLevel (o : CliOptions) (e : Env) (cwd : String) :
    envGet (setEnvFromOptions o e cwd) "CONFIG_LOG_LEVEL" =
      truthyVal id o.logLevel (envGet e "CONFIG_LOG_LEVEL") := by
  simp [setEnvFromOptions, envGet_writeTruthy, envGet_writeDefined]

lemma envGet_setEnv_logFile (o : CliOptions) (e : Env) (cwd : String) :
    envGet (setEnvFromOptions o e cwd) "CONFIG_LOG_FILE" =
      truthyVal id o.logFile (envGet e "CONFIG_LOG_FILE") := by
  simp [setEnvFromOptions, envGet_writeTruthy, envGet_writeDefined]

lemma envGet_setEnv_port (o : CliOptions) (e : Env) (cwd : String) :
    envGet (setEnvFromOptions o e cwd) "CONFIG_PORT" =
      definedVal jsNumString o.port (envGet e "CONFIG_PORT") := by
  simp [setEnvFromOptions, envGet_writeTruthy, envGet_writeDefined]

lemma envGet_setEnv_saveCredential (o : CliOptions) (e : Env) (cwd : String) :
    envGet (setEnvFromOptions o e cwd) "CONFIG_SAVE_CREDENTIAL" =
      definedVal jsBoolString o.saveCredential
        (envGet e "CONFIG_SAVE_CREDENTIAL") := by
  simp [setEnvFromOptions, envGet_writeTruthy, envGet_writeDefined]

lemma envGet_setEnv_frame (o : CliOptions) (e : Env) (cwd : String)
    (k : String) (hk : k ∉ configKeys) :
    envGet (setEnvFromOptions o e cwd) k = envGet e k := by
  simp only [configKeys, List.mem_cons, List.mem_singleton, not_or] at hk
  obtain ⟨h1, h2, h3, h4, h5, h6, h7, h8, h9, h10, -⟩ := hk
  simp [setEnvFromOptions, envGet_writeTruthy, envGet_writeDefined,
    Ne.symm h1, Ne.symm h2, Ne.symm h3, Ne.symm h4, Ne.symm h5, Ne.symm h6,
    Ne.symm h7, Ne.symm h8, Ne.symm h9, Ne.symm h10]

lemma coerceNumber_errors_shape (v : JSValue) (name : String) :
    (coerceNumber v name).2 = [] ∨
      (coerceNumber v name).2 = ["Invalid numeric value for " ++ name ++ "."] := by
  cases v with
  | num n => cases n <;> simp [coerceNumber]
  | str s =>
      by_cases hs : s = ""
      · simp [coerceNumber, hs]
      · cases hp : parseIntBase10 s <;> simp [coerceNumber, hs, hp]
  | _ => simp [coerceNumber]

lemma coerceBoolean_errors_shape (v : JSValue) (name : String) :
    (coerceBoolean v name).2 = [] ∨
      (coerceBoolean v name).2 = ["Invalid boolean value for " ++ name ++ "."] := by
  cases v with
  | str s =>
      by_cases ht : jsToLower (jsTrim s) ∈ truthyValues
      · simp [coerceBoolean, ht]
      · by_cases hf : jsToLower (jsTrim s) ∈ falsyValues <;>
          simp [coerceBoolean, ht, hf]
  | _ => simp [coerceBoolean]

lemma normalize_errors_decompose (input : RawInput) :
    (normalizeCliOptions input).errors =
      (coerceNumber (getRawValue input (optionAliases .timeout)) "timeout").2 ++
      (coerceNumber (getRawValue input (optionAliases .maxRetries))
        "max-retries").2 ++
      (coerceNumber (getRawValue input (optionAliases .port)) "port").2 ++
      (coerceBoolean (getRawValue input (optionAliases .saveCredential))
        "save-credential").2 := by
  simp [normalizeCliOptions]

lemma dropWhile_append_of_forall {p : Char → Bool} {l1 : List Char}
    (l2 : List Char) (h : ∀ c ∈ l1, p c = true) :
    (l1 ++ l2).dropWhile p = l2.dropWhile p := by
  induction l1 with
  | nil => rfl
  | cons c t ih =>
      simp only [List.cons_append, List.dropWhile_cons, h c (by simp)]
      exact ih fun c hc => h c (by simp [hc])

lemma dropWhile_eq_self_of_head {p : Char → Bool} {l : List Char}
    (h : ∀ c, l.head? = some c → p c = false) :
    l.dropWhile p = l := by
  cases l with
  | nil => rfl
  | cons c t => simp [List.dropWhile_cons, h c rfl]

lemma takeWhile_append_of_forall {p : Char → Bool} {l1 l2 : List Char}
    (h1 : ∀ c ∈ l1, p c = true) (h2 : ∀ c, l2.head? = some c → p c = false) :
    (l1 ++ l2).takeWhile p = l1 := by
  induction l1 with
  | nil =>
      cases l2 with
      | nil => rfl
      | cons c t => simp [List.takeWhile_cons, h2 c rfl]
  | cons c t ih =>
      simp only [List.cons_append, List.takeWhile_cons, h1 c (by simp),
        cond_true]
      exact congrArg (c :: ·) (ih fun c hc => h1 c (by simp [hc]))

lemma digit_not_ws {c : Char} (h : c.isDigit = true) : isWsChar c = false := by
  revert h
  simp only [Char.isDigit, isWsChar]
  rcases Decidable.em (c = ' ') with rfl | h1
  · decide
  rcases Decidable.em (c = '\t') with rfl | h2
  · decide
  rcases Decidable.em (c = '\n') with rfl | h3
  · decide
  rcases Decidable.em (c = '\r') with rfl | h4
  · decide
  simp [h1, h2, h3, h4]

lemma digit_not_sign {c : Char} (h : c.isDigit = true) :
    c ≠ '-' ∧ c ≠ '+' := by
  constructor <;> rintro rfl <;> simp [Char.isDigit] at h

lemma parseIntChars_decomposed (ws sgnChars ds rest : List Char) (sgn : ℤ)
    (hws : ∀ c ∈ ws, isWsChar c = true)
    (hsgn : (sgnChars = [] ∧ sgn = 1) ∨ (sgnChars = ['+'] ∧ sgn = 1) ∨
      (sgnChars = ['-'] ∧ sgn = -1))
    (hds : ds ≠ []) (hdig : ∀ c ∈ ds, c.isDigit = true)
    (hrest : ∀ c, rest.head? = some c → c.isDigit = false) :
    parseIntChars (ws ++ sgnChars ++ ds ++ rest) =
      some (sgn * (digitsVal ds : ℤ)) := by
  obtain ⟨d, ds', rfl⟩ : ∃ d ds', ds = d :: ds' := by
    cases ds with
    | nil => exact absurd rfl hds
    | cons d ds' => exact ⟨d, ds', rfl⟩
  have hd : d.isDigit = true := hdig d (by simp)
  have hdrop :
      (ws ++ sgnChars ++ (d :: ds') ++ rest).dropWhile isWsChar =
        sgnChars ++ (d :: ds') ++ rest := by
    rw [List.append_assoc, List.append_assoc,
      dropWhile_append_of_forall _ hws, ← List.append_assoc]
    apply dropWhile_eq_self_of_head
    intro c hc
    rcases hsgn with ⟨rfl, -⟩ | ⟨rfl, -⟩ | ⟨rfl, -⟩
    · simp only [List.nil_append, List.cons_append, List.head?_cons,
        Option.some.injEq] at hc
      exact hc ▸ digit_not_ws hd
    · simp only [List.cons_append, List.head?_cons, Option.some.injEq] at hc
      subst hc; decide
    · simp only [List.cons_append, List.head?_cons, Option.some.injEq] at hc
      subst hc; decide
  have htake : ((d :: ds') ++ rest).takeWhile Char.isDigit = d :: ds' :=
    takeWhile_append_of_forall hdig hrest
  have htake' : (ds' ++ rest).takeWhile Char.isDigit = ds' :=
    takeWhile_append_of_forall (fun c hc => hdig c (by simp [hc])) hrest
  rcases hsgn with ⟨rfl, rfl⟩ | ⟨rfl, rfl⟩ | ⟨rfl, rfl⟩
  · simp only [parseIntChars, hdrop, List.nil_append, List.cons_append,
      splitSign, if_neg (digit_not_sign hd).1, if_neg (digit_not_sign hd).2]
    simp only [← List.cons_append, htake]
    simp
  · simp only [parseIntChars, hdrop, List.cons_append, splitSign]
    norm_num
    simp [htake, htake', hd]
  · simp only [parseIntChars, hdrop, List.cons_append, splitSign]
    norm_num
    simp [htake, htake', hd]

lemma opt_err_shape {e : List String} {m : String} (h : e = [] ∨ e = [m]) :
    ∃ t : Bool, e = cond t [m] [] ∧ e.length ≤ 1 := by
  rcases h with rfl | rfl
  · exact ⟨false, rfl, by simp⟩
  · exact ⟨true, rfl, by simp⟩

/-- Claim C2: numeric coercion — absent, `null`, or empty-string raw values
leave the field absent with no error; a non-`NaN` number passes through
unchanged; a string is parsed as a base-10 integer, and a failed parse or
any otherwise unsupported raw type appends exactly
`Invalid numeric value for <option-name>.` and leaves the field absent; the
option names used are `timeout`, `max-retries` and `port`. -/
theorem claim_C2_coerceNumber (name : String) :
    (coerceNumber .undef name = (none, []) ∧
     coerceNumber .null name = (none, []) ∧
     coerceNumber (.str "") name = (none, [])) ∧
    (∀ q : ℚ, coerceNumber (.num (.fin q)) name = (some (.fin q), [])) ∧
    (∀ (s : String) (n : ℤ), s ≠ "" → parseIntBase10 s = some n →
      coerceNumber (.str s) name = (some (.fin (n : ℚ)), [])) ∧
    (∀ s : String, s ≠ "" → parseIntBase10 s = none →
      coerceNumber (.str s) name =
        (none, ["Invalid numeric value for " ++ name ++ "."])) ∧
    (∀ b : Bool, coerceNumber (.bool b) name =
      (none, ["Invalid numeric value for " ++ name ++ "."])) ∧
    (∀ xs : JSList, coerceNumber (.arr xs) name =
      (none, ["Invalid numeric value for " ++ name ++ "."])) ∧
    coerceNumber (.num .nan) name =
      (none, ["Invalid numeric value for " ++ name ++ "."]) ∧
    (normalizeCliOptions
        [("timeout", .str "abc"), ("max-retries", .str "abc"),
         ("port", .str "abc")]).errors =
      ["Invalid numeric value for timeout.",
       "Invalid numeric value for max-retries.",
       "Invalid numeric value for port."] ∧
    (normalizeCliOptions
        [("timeout", .str "abc"), ("max-retries", .str "abc"),
         ("port", .str "abc")]).options.timeout = none := by
  refine ⟨⟨rfl, rfl, rfl⟩, fun q => rfl, ?_, ?_, fun b => rfl, fun xs => rfl,
    rfl, by decide, by decide⟩
  · intro s n hs hp
    simp [coerceNumber, hs, hp]
  · intro s hs hp
    simp [coerceNumber, hs, hp]

/-- Witness for the claim-C2 theorem at concrete inputs. -/
theorem claim_C2_coerceNumber_witness :
    coerceNumber (.str "30") "timeout" = (some (.fin (((30 : ℤ) : ℚ))), []) ∧
    coerceNumber (.str "abc") "max-retries" =
      (none, ["Invalid numeric value for " ++ "max-retries" ++ "."]) :=
  ⟨(claim_C2_coerceNumber "timeout").2.2.1 "30" 30 (by decide) (by decide),
   (claim_C2_coerceNumber "max-retries").2.2.2.1 "abc" (by decide) (by decide)⟩

/-- Claim C5: boolean coercion — absent/`null` leave the field absent with
no error; a genuine boolean passes through; a string is trimmed and
lower-cased and mapped through the truthy set (`true`,`1`,`yes`) or falsy
set (`false`,`0`,`no`); an unmatched string or any other raw type appends
exactly `Invalid boolean value for save-credential.` and leaves the field
absent. -/
theorem claim_C5_coerceBoolean :
    (∀ name : String,
      coerceBoolean .undef name = (none, []) ∧
      coerceBoolean .null name = (none, []) ∧
      (∀ b : Bool, coerceBoolean (.bool b) name = (some b, [])) ∧
      (∀ s : String, jsToLower (jsTrim s) ∈ truthyValues →
        coerceBoolean (.str s) name = (some true, [])) ∧
      (∀ s : String, jsToLower (jsTrim s) ∈ falsyValues →
        coerceBoolean (.str s) name = (some false, [])) ∧
      (∀ s : String, jsToLower (jsTrim s) ∉ truthyValues →
        jsToLower (jsTrim s) ∉ falsyValues →
        coerceBoolean (.str s) name =
          (none, ["Invalid boolean value for " ++ name ++ "."])) ∧
      (∀ n : JSNum, coerceBoolean (.num n) name =
        (none, ["Invalid boolean value for " ++ name ++ "."])) ∧
      (∀ xs : JSList, coerceBoolean (.arr xs) name =
        (none, ["Invalid boolean value for " ++ name ++ "."]))) ∧
    (normalizeCliOptions [("saveCredential", .str "maybe")]).errors =
      ["Invalid boolean value for save-credential."] ∧
    (normalizeCliOptions [("saveCredential", .str "maybe")]).options.saveCredential =
      none := by
  refine ⟨fun name => ⟨rfl, rfl, fun b => rfl, ?_, ?_, ?_, fun n => rfl,
    fun xs => rfl⟩, by decide, by decide⟩
  · intro s ht
    simp [coerceBoolean, ht]
  · intro s hf
    have ht : jsToLower (jsTrim s) ∉ truthyValues := by
      intro ht
      simp only [truthyValues, List.mem_cons, List.mem_singleton,
        List.not_mem_nil, or_false] at ht
      simp only [falsyValues, List.mem_cons, List.mem_singleton,
        List.not_mem_nil, or_false] at hf
      rcases ht with h | h | h <;> rcases hf with h' | h' | h' <;>
        simp [h] at h'
    simp [coerceBoolean, ht, hf]
  · intro s ht hf
    simp [coerceBoolean, ht, hf]

/-- Witness for the claim-C5 theorem at concrete inputs. -/
theorem claim_C5_coerceBoolean_witness :
    coerceBoolean (.str "yes") "save-credential" = (some true, []) ∧
    coerceBoolean (.str " TRUE ") "save-credential" = (some true, []) ∧
    coerceBoolean (.str "0") "save-credential" = (some false, []) ∧
    coerceBoolean (.str "no") "save-credential" = (some false, []) ∧
    coerceBoolean (.str "maybe") "save-credential" =
      (none, ["Invalid boolean value for " ++ "save-credential" ++ "."]) :=
  ⟨(claim_C5_coerceBoolean.1 "save-credential").2.2.2.1 "yes" (by decide),
   (claim_C5_coerceBoolean.1 "save-credential").2.2.2.1 " TRUE " (by decide),
   (claim_C5_coerceBoolean.1 "save-credential").2.2.2.2.1 "0" (by decide),
   (claim_C5_coerceBoolean.1 "save-credential").2.2.2.2.1 "no" (by decide),
   (claim_C5_coerceBoolean.1 "save-credential").2.2.2.2.2.1 "maybe"
     (by decide) (by decide)⟩

/-- Claim C8: string coercion — absent/`null` leave the field absent; any
other raw value becomes its `String(...)` representation; an array joins its
stringified elements with commas; string coercion never contributes to the
validation-error list (the error list is exactly the output of the four
fallible coercions). -/
theorem claim_C8_coerceString :
    (coerceString .undef = none ∧ coerceString .null = none) ∧
    (∀ b : Bool, coerceString (.bool b) = some (jsString (.bool b))) ∧
    (∀ n : JSNum, coerceString (.num n) = some (jsString (.num n))) ∧
    (∀ s : String, coerceString (.str s) = some (jsString (.str s))) ∧
    (∀ xs : JSList,
      coerceString (.arr xs) =
        some (String.intercalate "," (jsListMapString xs))) ∧
    coerceString (.arr (.cons (.str "a") (.cons (.str "b") .nil))) =
      some "a,b" ∧
    (∀ input : RawInput,
      (normalizeCliOptions input).errors =
        (coerceNumber (getRawValue input (optionAliases .timeout))
          "timeout").2 ++
        (coerceNumber (getRawValue input (optionAliases .maxRetries))
          "max-retries").2 ++
        (coerceNumber (getRawValue input (optionAliases .port)) "port").2 ++
        (coerceBoolean (getRawValue input (optionAliases .saveCredential))
          "save-credential").2) :=
  ⟨⟨rfl, rfl⟩, fun b => rfl, fun n => rfl, fun s => rfl, fun xs => rfl,
   by decide, normalize_errors_decompose⟩

/-- Claim C9: for every input the validation-error list is exactly a
subsequence of the four possible messages in the fixed order `timeout`,
`max-retries`, `port`, `save-credential`, with at most one entry per field
and hence never more than four entries. -/
theorem claim_C9_error_order (input : RawInput) :
    (∃ t m p b : Bool,
      (normalizeCliOptions input).errors =
        (cond t ["Invalid numeric value for timeout."] []) ++
        (cond m ["Invalid numeric value for max-retries."] []) ++
        (cond p ["Invalid numeric value for port."] []) ++
        (cond b ["Invalid boolean value for save-credential."] [])) ∧
    (normalizeCliOptions input).errors.length ≤ 4 := by
  have hd := normalize_errors_decompose input
  obtain ⟨t, ht, hlt⟩ := opt_err_shape
    (coerceNumber_errors_shape (getRawValue input (optionAliases .timeout))
      "timeout")
  obtain ⟨m, hm, hlm⟩ := opt_err_shape
    (coerceNumber_errors_shape (getRawValue input (optionAliases .maxRetries))
      "max-retries")
  obtain ⟨p, hp, hlp⟩ := opt_err_shape
    (coerceNumber_errors_shape (getRawValue input (optionAliases .port))
      "port")
  obtain ⟨b, hb, hlb⟩ := opt_err_shape
    (coerceBoolean_errors_shape
      (getRawValue input (optionAliases .saveCredential)) "save-credential")
  constructor
  · exact ⟨t, m, p, b, by rw [hd, ht, hm, hp, hb]; rfl⟩
  · rw [hd]
    simp only [List.length_append]
    omega

/-- Claim C6: alias lookup — every option's alias list starts with the
camel-case key; `getRawValue` probes the aliases in order and the first key
present in the input wins; hence `max-retries` and `maxRetries` both reach
the `maxRetries` field, and when both are present (in either input order)
the camel-case value is taken. -/
theorem claim_C6_alias_priority :
    (∀ f : OptionField, (optionAliases f).head? = some (fieldCamelKey f)) ∧
    (∀ (input : RawInput) (a : String) (rest : List String) (v : JSValue),
      lookupKey input a = some v → getRawValue input (a :: rest) = v) ∧
    (∀ (input : RawInput) (a : String) (rest : List String),
      lookupKey input a = none →
      getRawValue input (a :: rest) = getRawValue input rest) ∧
    (normalizeCliOptions [("max-retries", .str "5")]).options.maxRetries =
      some (.fin 5) ∧
    (normalizeCliOptions [("maxRetries", .str "5")]).options.maxRetries =
      some (.fin 5) ∧
    (normalizeCliOptions
        [("maxRetries", .str "7"), ("max-retries", .str "5")]).options.maxRetries =
      some (.fin 7) ∧
    (normalizeCliOptions
        [("max-retries", .str "5"), ("maxRetries", .str "7")]).options.maxRetries =
      some (.fin 7) := by
  refine ⟨fun f => ?_, fun input a rest v h => ?_, fun input a rest h => ?_,
    by decide, by decide, by decide, by decide⟩
  · cases f <;> rfl
  · simp [getRawValue, h]
  · simp [getRawValue, h]

/-- Witness for the claim-C6 theorem at concrete inputs. -/
theorem claim_C6_alias_priority_witness :
    getRawValue [("max-retries", .str "5"), ("maxRetries", .str "7")]
      ("maxRetries" :: ["max-retries"]) = .str "7" ∧
    getRawValue [("max-retries", .str "5")]
      ("maxRetries" :: ["max-retries"]) =
      getRawValue [("max-retries", .str "5")] ["max-retries"] :=
  ⟨claim_C6_alias_priority.2.1 [("max-retries", .str "5"),
      ("maxRetries", .str "7")] "maxRetries" ["max-retries"] (.str "7")
      (by decide),
   claim_C6_alias_priority.2.2.1 [("max-retries", .str "5")] "maxRetries"
      ["max-retries"] (by decide)⟩

lemma excessBits_of_lt {n : ℕ} (fuel : ℕ) (h : n < 2 ^ 53) :
    excessBits fuel n = 0 := by
  cases fuel with
  | zero => rfl
  | succ f =>
      show (if n < 2 ^ 53 then 0 else excessBits f (n / 2) + 1) = 0
      rw [if_pos h]

lemma roundNatToDouble_of_lt {n : ℕ} (h : n < 2 ^ 53) :
    roundNatToDouble n = n := by
  simp [roundNatToDouble, excessBits_of_lt 1100 h]

lemma roundToDouble_of_natAbs_lt {n : ℤ} (h : n.natAbs < 2 ^ 53) :
    roundToDouble n = n := by
  rw [roundToDouble, roundNatToDouble_of_lt h, Int.sign_mul_natAbs]

lemma parseIntJS_decomposed (ws sgnChars ds rest : List Char) (sgn : ℤ)
    (hws : ∀ c ∈ ws, isWsChar c = true)
    (hsgn : (sgnChars = [] ∧ sgn = 1) ∨ (sgnChars = ['+'] ∧ sgn = 1) ∨
      (sgnChars = ['-'] ∧ sgn = -1))
    (hds : ds ≠ []) (hdig : ∀ c ∈ ds, c.isDigit = true)
    (hrest : ∀ c, rest.head? = some c → c.isDigit = false)
    (hrange : digitsVal ds < 2 ^ 53) :
    parseIntJSChars (ws ++ sgnChars ++ ds ++ rest) =
      some (sgn * (digitsVal ds : ℤ)) := by
  have hp := parseIntChars_decomposed ws sgnChars ds rest sgn hws hsgn hds
    hdig hrest
  have habs : (sgn * (digitsVal ds : ℤ)).natAbs < 2 ^ 53 := by
    rcases hsgn with ⟨-, rfl⟩ | ⟨-, rfl⟩ | ⟨-, rfl⟩ <;>
      simpa [Int.natAbs_mul] using hrange
  rw [parseIntJSChars, hp]
  simp [roundToDouble_of_natAbs_lt habs]

/-- Claim C10 fails as stated: `Number.parseInt` returns a JavaScript
double, so the digit run `9007199254740993` (`2 ^ 53 + 1`) does not coerce
to its own integer value — the result rounds to the nearest double,
`9007199254740992`. -/
theorem claim_C10_counterexample :
    digitsVal "9007199254740993".data = 9007199254740993 ∧
    coerceNumberJS (.str "9007199254740993") "timeout" =
      (some (.fin 9007199254740992), []) ∧
    (9007199254740992 : ℚ) ≠ (9007199254740993 : ℚ) :=
  ⟨by decide, by decide, by decide⟩

/-- Claim C10 as amended: on a string made of optional whitespace, an
optional sign and at least one decimal digit, numeric coercion returns the
integer value of the longest leading base-10 digit run with no error,
provided that value is below `2 ^ 53` (the double-precision exact-integer
range; beyond it the value rounds to the nearest double), so `12abc` gives
12 and `3.9` gives 3; and any non-`NaN` number passes through unchanged
with no rounding or range check, for all three numeric fields. -/
theorem claim_C10_parseInt_amended :
    (∀ (ws sgnChars ds rest : List Char) (sgn : ℤ) (name : String),
      (∀ c ∈ ws, isWsChar c = true) →
      ((sgnChars = [] ∧ sgn = 1) ∨ (sgnChars = ['+'] ∧ sgn = 1) ∨
        (sgnChars = ['-'] ∧ sgn = -1)) →
      ds ≠ [] → (∀ c ∈ ds, c.isDigit = true) →
      (∀ c, rest.head? = some c → c.isDigit = false) →
      digitsVal ds < 2 ^ 53 →
      coerceNumberJS (.str (String.mk (ws ++ sgnChars ++ ds ++ rest))) name =
        (some (.fin ((sgn * (digitsVal ds : ℤ) : ℤ) : ℚ)), [])) ∧
    coerceNumberJS (.str "12abc") "timeout" = (some (.fin 12), []) ∧
    coerceNumberJS (.str "3.9") "timeout" = (some (.fin 3), []) ∧
    (∀ (q : ℚ) (name : String),
      coerceNumberJS (.num (.fin q)) name = (some (.fin q), [])) ∧
    (∀ q : ℚ,
      (normalizeCliOptions [("timeout", .num (.fin q))]).options.timeout =
        some (.fin q) ∧
      (normalizeCliOptions [("maxRetries", .num (.fin q))]).options.maxRetries =
        some (.fin q) ∧
      (normalizeCliOptions [("port", .num (.fin q))]).options.port =
        some (.fin q) ∧
      (normalizeCliOptions
          [("timeout", .num (.fin q)), ("maxRetries", .num (.fin q)),
           ("port", .num (.fin q))]).errors = []) := by
  refine ⟨?_, by decide, by decide, fun q name => rfl,
    fun q => ⟨rfl, rfl, rfl, rfl⟩⟩
  intro ws sgnChars ds rest sgn name hws hsgn hds hdig hrest hrange
  have hne : String.mk (ws ++ sgnChars ++ ds ++ rest) ≠ "" := by
    intro h
    rw [String.ext_iff] at h
    simp only [List.append_eq_nil] at h
    exact hds h.1.2
  have hp : parseIntJSBase10 (String.mk (ws ++ sgnChars ++ ds ++ rest)) =
      some (sgn * (digitsVal ds : ℤ)) :=
    parseIntJS_decomposed ws sgnChars ds rest sgn hws hsgn hds hdig hrest
      hrange
  simp only [List.append_assoc] at hne hp
  simp [coerceNumberJS, hne, hp]

/-- Witness for the amended claim-C10 theorem at a concrete decomposed
string. -/
theorem claim_C10_parseInt_amended_witness :
    coerceNumberJS (.str (String.mk ([' '] ++ ['-'] ++ ['4', '2'] ++ ['x'])))
        "port" =
      (some (.fin (((-1 : ℤ) * (digitsVal ['4', '2'] : ℤ) : ℤ) : ℚ)), []) :=
  claim_C10_parseInt_amended.1 [' '] ['-'] ['4', '2'] ['x'] (-1) "port"
    (by decide) (by decide) (by decide) (by decide) (by decide) (by decide)

lemma specConfigValue_fileIni (o : CliOptions) (cwd : String) :
    specConfigValue o cwd "CONFIG_FILE_INI" =
      o.fileIni.bind fun s =>
        if s = "" then none else some (pathResolve cwd s) := rfl

lemma specConfigValue_credentialIssuerUri (o : CliOptions) (cwd : String) :
    specConfigValue o cwd "CONFIG_CREDENTIAL_ISSUER_URI" =
      o.credentialIssuerUri.bind fun s =>
        if s = "" then none else some s := rfl

lemma specConfigValue_presentationAuthorizeUri (o : CliOptions) (cwd : String) :
    specConfigValue o cwd "CONFIG_PRESENTATION_AUTHORIZE_URI" =
      o.presentationAuthorizeUri.bind fun s =>
        if s = "" then none else some s := rfl

lemma specConfigValue_credentialTypes (o : CliOptions) (cwd : String) :
    specConfigValue o cwd "CONFIG_CREDENTIAL_TYPES" =
      o.credentialTypes.bind fun s => if s = "" then none else some s := rfl

lemma specConfigValue_timeout (o : CliOptions) (cwd : String) :
    specConfigValue o cwd "CONFIG_TIMEOUT" = o.timeout.map jsNumString := rfl

lemma specConfigValue_maxRetries (o : CliOptions) (cwd : String) :
    specConfigValue o cwd "CONFIG_MAX_RETRIES" =
      o.maxRetries.map jsNumString := rfl

lemma specConfigValue_logLevel (o : CliOptions) (cwd : String) :
    specConfigValue o cwd "CONFIG_LOG_LEVEL" =
      o.logLevel.bind fun s => if s = "" then none else some s := rfl

lemma specConfigValue_logFile (o : CliOptions) (cwd : String) :
    specConfigValue o cwd "CONFIG_LOG_FILE" =
      o.logFile.bind fun s => if s = "" then none else some s := rfl

lemma specConfigValue_port (o : CliOptions) (cwd : String) :
    specConfigValue o cwd "CONFIG_PORT" = o.port.map jsNumString := rfl

lemma specConfigValue_saveCredential (o : CliOptions) (cwd : String) :
    specConfigValue o cwd "CONFIG_SAVE_CREDENTIAL" =
      o.saveCredential.map jsBoolString := rfl

/-- Claim C1 fails as stated: `fileIni` present as the empty string does not
cause `CONFIG_FILE_INI` to be written (the source guards string-valued
fields with JavaScript truthiness, which the empty string fails). -/
theorem claim_C1_counterexample :
    (({ fileIni := some "" } : CliOptions).fileIni).isSome = true ∧
    envGet (setEnvFromOptions { fileIni := some "" } [] "/work")
      "CONFIG_FILE_INI" = none :=
  ⟨rfl, rfl⟩

/-- Claim C1 as amended: on every `CONFIG_*` key the overlay holds exactly
the value of the fixed field-to-key mapping — string-valued fields write
(with `fileIni` resolved against the working directory) only when present
and non-empty, numeric fields write their stringification and the boolean
field writes literal `true`/`false` whenever present — and a key its field
does not write keeps its ambient value. -/
theorem claim_C1_env_mapping (o : CliOptions) (e : Env) (cwd : String)
    (k : String) (hk : k ∈ configKeys) :
    envGet (setEnvFromOptions o e cwd) k =
      match specConfigValue o cwd k with
      | some v => some v
      | none => envGet e k := by
  simp only [configKeys, List.mem_cons, List.mem_singleton,
    List.not_mem_nil, or_false] at hk
  rcases hk with rfl | rfl | rfl | rfl | rfl | rfl | rfl | rfl | rfl | rfl
  · rw [envGet_setEnv_fileIni, specConfigValue_fileIni]
    cases h : o.fileIni with
    | none => simp [truthyVal]
    | some s => by_cases hs : s = "" <;> simp [truthyVal, hs]
  · rw [envGet_setEnv_credentialIssuerUri, specConfigValue_credentialIssuerUri]
    cases h : o.credentialIssuerUri with
    | none => simp [truthyVal]
    | some s => by_cases hs : s = "" <;> simp [truthyVal, hs]
  · rw [envGet_setEnv_presentationAuthorizeUri,
      specConfigValue_presentationAuthorizeUri]
    cases h : o.presentationAuthorizeUri with
    | none => simp [truthyVal]
    | some s => by_cases hs : s = "" <;> simp [truthyVal, hs]
  · rw [envGet_setEnv_credentialTypes, specConfigValue_credentialTypes]
    cases h : o.credentialTypes with
    | none => simp [truthyVal]
    | some s => by_cases hs : s = "" <;> simp [truthyVal, hs]
  · rw [envGet_setEnv_timeout, specConfigValue_timeout]
    cases h : o.timeout <;> simp [definedVal]
  · rw [envGet_setEnv_maxRetries, specConfigValue_maxRetries]
    cases h : o.maxRetries <;> simp [definedVal]
  · rw [envGet_setEnv_logLevel, specConfigValue_logLevel]
    cases h : o.logLevel with
    | none => simp [truthyVal]
    | some s => by_cases hs : s = "" <;> simp [truthyVal, hs]
  · rw [envGet_setEnv_logFile, specConfigValue_logFile]
    cases h : o.logFile with
    | none => simp [truthyVal]
    | some s => by_cases hs : s = "" <;> simp [truthyVal, hs]
  · rw [envGet_setEnv_port, specConfigValue_port]
    cases h : o.port <;> simp [definedVal]
  · rw [envGet_setEnv_saveCredential, specConfigValue_saveCredential]
    cases h : o.saveCredential <;> simp [definedVal]

/-- Witness for the amended claim-C1 theorem at a concrete record. -/
theorem claim_C1_env_mapping_witness :
    envGet
        (setEnvFromOptions
          { timeout := some (.fin 30), saveCredential := some false }
          [("PATH", "/bin")] "/w")
        "CONFIG_TIMEOUT" =
      match
        specConfigValue
          { timeout := some (.fin 30), saveCredential := some false } "/w"
          "CONFIG_TIMEOUT" with
      | some v => some v
      | none => envGet [("PATH", "/bin")] "CONFIG_TIMEOUT" :=
  claim_C1_env_mapping
    { timeout := some (.fin 30), saveCredential := some false }
    [("PATH", "/bin")] "/w" "CONFIG_TIMEOUT" (by decide)

/-- Claim C7: environment projection is pure and frame-preserving — the same
inputs give the same overlay; every key outside the ten `CONFIG_*` keys
keeps its ambient value; and the key of a field absent from the record keeps
its ambient value (no new key, no deletion). -/
theorem claim_C7_env_frame (o : CliOptions) (e : Env) (cwd : String) :
    setEnvFromOptions o e cwd = setEnvFromOptions o e cwd ∧
    (∀ k, k ∉ configKeys →
      envGet (setEnvFromOptions o e cwd) k = envGet e k) ∧
    (o.fileIni = none →
      envGet (setEnvFromOptions o e cwd) "CONFIG_FILE_INI" =
        envGet e "CONFIG_FILE_INI") ∧
    (o.credentialIssuerUri = none →
      envGet (setEnvFromOptions o e cwd) "CONFIG_CREDENTIAL_ISSUER_URI" =
        envGet e "CONFIG_CREDENTIAL_ISSUER_URI") ∧
    (o.presentationAuthorizeUri = none →
      envGet (setEnvFromOptions o e cwd) "CONFIG_PRESENTATION_AUTHORIZE_URI" =
        envGet e "CONFIG_PRESENTATION_AUTHORIZE_URI") ∧
    (o.credentialTypes = none →
      envGet (setEnvFromOptions o e cwd) "CONFIG_CREDENTIAL_TYPES" =
        envGet e "CONFIG_CREDENTIAL_TYPES") ∧
    (o.timeout = none →
      envGet (setEnvFromOptions o e cwd) "CONFIG_TIMEOUT" =
        envGet e "CONFIG_TIMEOUT") ∧
    (o.maxRetries = none →
      envGet (setEnvFromOptions o e cwd) "CONFIG_MAX_RETRIES" =
        envGet e "CONFIG_MAX_RETRIES") ∧
    (o.logLevel = none →
      envGet (setEnvFromOptions o e cwd) "CONFIG_LOG_LEVEL" =
        envGet e "CONFIG_LOG_LEVEL") ∧
    (o.logFile = none →
      envGet (setEnvFromOptions o e cwd) "CONFIG_LOG_FILE" =
        envGet e "CONFIG_LOG_FILE") ∧
    (o.port = none →
      envGet (setEnvFromOptions o e cwd) "CONFIG_PORT" =
        envGet e "CONFIG_PORT") ∧
    (o.saveCredential = none →
      envGet (setEnvFromOptions o e cwd) "CONFIG_SAVE_CREDENTIAL" =
        envGet e "CONFIG_SAVE_CREDENTIAL") := by
  refine ⟨rfl, fun k hk => envGet_setEnv_frame o e cwd k hk,
    fun h => ?_, fun h => ?_, fun h => ?_, fun h => ?_, fun h => ?_,
    fun h => ?_, fun h => ?_, fun h => ?_, fun h => ?_, fun h => ?_⟩
  · rw [envGet_setEnv_fileIni, h]; rfl
  · rw [envGet_setEnv_credentialIssuerUri, h]; rfl
  · rw [envGet_setEnv_presentationAuthorizeUri, h]; rfl
  · rw [envGet_setEnv_credentialTypes, h]; rfl
  · rw [envGet_setEnv_timeout, h]; rfl
  · rw [envGet_setEnv_maxRetries, h]; rfl
  · rw [envGet_setEnv_logLevel, h]; rfl
  · rw [envGet_setEnv_logFile, h]; rfl
  · rw [envGet_setEnv_port, h]; rfl
  · rw [envGet_setEnv_saveCredential, h]; rfl

/-- Witness for the claim-C7 theorem at a concrete record and environment. -/
theorem claim_C7_env_frame_witness :
    envGet
        (setEnvFromOptions { port := some (.fin 1) } [("HOME", "/root")] "/")
        "HOME" =
      envGet [("HOME", "/root")] "HOME" ∧
    envGet
        (setEnvFromOptions { port := some (.fin 1) } [("HOME", "/root")] "/")
        "CONFIG_FILE_INI" =
      envGet [("HOME", "/root")] "CONFIG_FILE_INI" :=
  ⟨(claim_C7_env_frame { port := some (.fin 1) } [("HOME", "/root")] "/").2.1
      "HOME" (by decide),
   (claim_C7_env_frame { port := some (.fin 1) } [("HOME", "/root")] "/").2.2.1
      rfl⟩

/-- Claim C3: when the merged query-plus-body input produces a non-empty
validation-error list, the test handler responds `400` with those errors and
spawns no subprocess; in particular a body `timeout = "notanumber"` yields
`400` with exactly `Invalid numeric value for timeout.`. -/
theorem claim_C3_validation_short_circuit :
    (∀ (script : String) (runner : Env → RunOutcome) (query body : RawInput)
       (penv : Env) (cwd : String),
      (normalizeCliOptions (normalizeRequestParams query body)).errors ≠ [] →
      createTestHandler script runner query body penv cwd =
        { status := 400,
          body := .errors
            (normalizeCliOptions (normalizeRequestParams query body)).errors,
          spawned := false }) ∧
    (∀ (script : String) (runner : Env → RunOutcome) (penv : Env)
       (cwd : String),
      createTestHandler script runner [] [("timeout", .str "notanumber")]
          penv cwd =
        { status := 400,
          body := .errors ["Invalid numeric value for timeout."],
          spawned := false }) := by
  constructor
  · intro script runner query body penv cwd h
    simp [createTestHandler, h]
  · intro script runner penv cwd
    rfl

/-- Witness for the claim-C3 theorem at a concrete request. -/
theorem claim_C3_validation_short_circuit_witness :
    createTestHandler "test:issuance"
        (fun _ => RunOutcome.completed (some 0) "" "") []
        [("timeout", .str "notanumber")] [] "/" =
      { status := 400,
        body := .errors
          (normalizeCliOptions
            (normalizeRequestParams [] [("timeout", .str "notanumber")])).errors,
        spawned := false } :=
  claim_C3_validation_short_circuit.1 "test:issuance"
    (fun _ => RunOutcome.completed (some 0) "" "") []
    [("timeout", .str "notanumber")] [] "/" (by decide)

/-- Claim C4: with no validation errors, a completed subprocess yields `200`
with the `command`/`exitCode`/`stdout`/`stderr` payload exactly when the exit
code is `0`, and `500` with the same payload shape for any other exit code
(including `null` for abnormal termination); a start failure instead yields
`500` with the `command_execution_failed` error body. -/
theorem claim_C4_exit_code_mapping (script : String)
    (runner : Env → RunOutcome) (query body : RawInput) (penv : Env)
    (cwd : String)
    (herr :
      (normalizeCliOptions (normalizeRequestParams query body)).errors = []) :
    (∀ out err,
      runner (setEnvFromOptions
          (normalizeCliOptions (normalizeRequestParams query body)).options
          penv cwd) = .completed (some 0) out err →
      createTestHandler script runner query body penv cwd =
        { status := 200, body := .payload script (some 0) out err,
          spawned := true }) ∧
    (∀ code out err,
      runner (setEnvFromOptions
          (normalizeCliOptions (normalizeRequestParams query body)).options
          penv cwd) = .completed code out err →
      code ≠ some 0 →
      createTestHandler script runner query body penv cwd =
        { status := 500, body := .payload script code out err,
          spawned := true }) ∧
    (∀ msg,
      runner (setEnvFromOptions
          (normalizeCliOptions (normalizeRequestParams query body)).options
          penv cwd) = .startError msg →
      createTestHandler script runner query body penv cwd =
        { status := 500, body := .execError "command_execution_failed" msg,
          spawned := true }) := by
  refine ⟨fun out err hrun => ?_, fun code out err hrun hcode => ?_,
    fun msg hrun => ?_⟩
  · simp [createTestHandler, herr, hrun]
  · simp [createTestHandler, herr, hrun, hcode]
  · simp [createTestHandler, herr, hrun]

/-- Witness for the claim-C4 theorem with a concrete stub runner. -/
theorem claim_C4_exit_code_mapping_witness :
    createTestHandler "test:presentation"
        (fun _ => RunOutcome.completed (some 0) "ok" "") [] [] [] "/" =
      { status := 200,
        body := .payload "test:presentation" (some 0) "ok" "",
        spawned := true } :=
  (claim_C4_exit_code_mapping "test:presentation"
      (fun _ => RunOutcome.completed (some 0) "ok" "") [] [] [] "/"
      (by decide)).1 "ok" "" rfl

end Wct
